import Mathlib

/-!
Verification of the multi-provider completion gateway implemented in
`src/services/litellm_service.py` of the `ai-service-litellm-gateway`
repository.

The development shallowly embeds the gateway's pure logic:

* the cache-key derivation `LiteLLMService._generate_cache_key`
  (JSON serialization with sorted keys, followed by a hash and the
  `litellm:cache:` namespace tag);
* the cache layer `_get_cached_response` / `_cache_response`;
* the usage recorder `_log_usage`;
* the orchestrator `chat_completion`, including its `except` block that
  maps upstream error text to HTTP errors;
* the static model catalog of `get_available_models`.

Effectful collaborators (the Redis store, the LiteLLM upstream call
`acompletion`, the `completion_cost` price function, `json.loads`, and
the cryptographic digest `hashlib.md5`) are not part of the repository;
they enter the model as explicit oracle parameters so that each run of
the orchestrator is a pure function of its environment.
-/

/-! ### Python string primitives

`str.lower` and the `in` substring test, restricted to the ASCII
alphabet actually used by the error patterns in the source. -/

/-- ASCII lower-casing of one character, as `str.lower` acts on the
ASCII range (the error patterns in the source are ASCII). -/
def lowerChar (c : Char) : Char :=
  if c.isUpper then Char.ofNat (c.toNat + 32) else c

/-- Model of Python `s.lower()` on ASCII text. -/
def pyLower (s : String) : String := ⟨s.data.map lowerChar⟩

/-- Contiguous-subsequence test on character lists. -/
def containsSeq (pat : List Char) : List Char → Bool
  | [] => decide (pat = [])
  | a :: rest => pat.isPrefixOf (a :: rest) || containsSeq pat rest

/-- Model of Python `pat in hay` for strings (substring containment). -/
def strContains (hay pat : String) : Bool := containsSeq pat.data hay.data

/-! ### Code-point lexicographic order on strings

Python compares `str` keys by code points; `json.dumps(..., sort_keys=True)`
sorts object keys by this order.  We implement the three-way comparison
directly on the character lists so every proof obligation reduces in the
kernel. -/

/-- Three-way code-point lexicographic comparison of character lists. -/
def lexCmp : List Char → List Char → Ordering
  | [], [] => .eq
  | [], _ :: _ => .lt
  | _ :: _, [] => .gt
  | a :: as, b :: bs =>
    if a.toNat < b.toNat then .lt
    else if b.toNat < a.toNat then .gt
    else lexCmp as bs

/-- `a ≤ b` for sort keys. -/
def keyLe (a b : String) : Bool :=
  match lexCmp a.data b.data with
  | .gt => false
  | _ => true

theorem char_eq_of_toNat_eq {a b : Char} (h : a.toNat = b.toNat) : a = b :=
  Char.ext (UInt32.toNat.inj h)

theorem string_data_inj {a b : String} (h : a.data = b.data) : a = b := by
  cases a
  cases b
  exact congrArg String.mk h

theorem lexCmp_eq_iff : ∀ as bs : List Char, lexCmp as bs = .eq ↔ as = bs := by
  intro as
  induction as with
  | nil => intro bs; cases bs <;> simp [lexCmp]
  | cons a as ih =>
    intro bs
    cases bs with
    | nil => simp [lexCmp]
    | cons b bs =>
      simp only [lexCmp]
      split_ifs with h1 h2
      · constructor
        · intro h; exact absurd h (by simp)
        · intro h; injection h with hh ht; subst hh; omega
      · constructor
        · intro h; exact absurd h (by simp)
        · intro h; injection h with hh ht; subst hh; omega
      · have hab : a = b := char_eq_of_toNat_eq (by omega)
        constructor
        · intro h
          have := (ih bs).mp h
          rw [hab, this]
        · intro h
          injection h with hh ht
          exact (ih bs).mpr ht

theorem lexCmp_gt_iff_lt : ∀ as bs : List Char,
    lexCmp as bs = .gt ↔ lexCmp bs as = .lt := by
  intro as
  induction as with
  | nil => intro bs; cases bs <;> simp [lexCmp]
  | cons a as ih =>
    intro bs
    cases bs with
    | nil => simp [lexCmp]
    | cons b bs =>
      by_cases h1 : a.toNat < b.toNat
      · have h2 : ¬ b.toNat < a.toNat := by omega
        simp [lexCmp, h1, h2]
      · by_cases h2 : b.toNat < a.toNat
        · simp [lexCmp, h1, h2]
        · simp [lexCmp, h1, h2, ih bs]

theorem keyLe_total {a b : String} (h : keyLe a b = false) : keyLe b a = true := by
  unfold keyLe at h ⊢
  rcases hab : lexCmp a.data b.data with _ | _ | _ <;> rw [hab] at h
  · simp at h
  · simp at h
  · rw [(lexCmp_gt_iff_lt a.data b.data).mp hab]

theorem keyLe_trans : ∀ as bs cs : List Char,
    lexCmp as bs ≠ .gt → lexCmp bs cs ≠ .gt → lexCmp as cs ≠ .gt := by
  intro as
  induction as with
  | nil =>
    intro bs cs _ _
    cases cs <;> simp [lexCmp]
  | cons a as ih =>
    intro bs cs h1 h2
    cases bs with
    | nil => exact absurd rfl h1
    | cons b bs =>
      cases cs with
      | nil => exact absurd rfl h2
      | cons c cs =>
        simp only [lexCmp] at h1 h2 ⊢
        by_cases g1 : a.toNat < c.toNat
        · simp [g1]
        · by_cases gab : a.toNat < b.toNat
          · by_cases gbc : b.toNat < c.toNat
            · omega
            · by_cases gcb : c.toNat < b.toNat
              · rw [if_neg gbc, if_pos gcb] at h2
                exact absurd rfl h2
              · omega
          · by_cases gba : b.toNat < a.toNat
            · rw [if_neg gab, if_pos gba] at h1
              exact absurd rfl h1
            · by_cases gbc : b.toNat < c.toNat
              · omega
              · by_cases gcb : c.toNat < b.toNat
                · rw [if_neg gbc, if_pos gcb] at h2
                  exact absurd rfl h2
                · have g2 : ¬ c.toNat < a.toNat := by omega
                  rw [if_neg gab, if_neg gba] at h1
                  rw [if_neg gbc, if_neg gcb] at h2
                  rw [if_neg g1, if_neg g2]
                  exact ih bs cs h1 h2

theorem keyLt_of_le_ne {a b : String} (hle : keyLe a b = true) (hne : a ≠ b) :
    lexCmp a.data b.data = .lt := by
  rcases he : lexCmp a.data b.data with _ | _ | _
  · rfl
  · exact absurd (string_data_inj ((lexCmp_eq_iff _ _).mp he)) hne
  · unfold keyLe at hle
    rw [he] at hle
    simp at hle

/-! ### The key-sorted insertion used by the serializer -/

/-- Insert one field into a key-sorted field list (stable insertion sort,
the order produced by `json.dumps(..., sort_keys=True)`). -/
def insertField {β : Type} (p : String × β) : List (String × β) → List (String × β)
  | [] => [p]
  | q :: qs => if keyLe p.1 q.1 then p :: q :: qs else q :: insertField p qs

/-- Sort a field list by key (code-point order on key strings). -/
def sortFields {β : Type} : List (String × β) → List (String × β)
  | [] => []
  | p :: ps => insertField p (sortFields ps)

theorem insertField_perm {β : Type} (p : String × β) :
    ∀ l : List (String × β), (insertField p l).Perm (p :: l) := by
  intro l
  induction l with
  | nil => simp [insertField]
  | cons q qs ih =>
    simp only [insertField]
    split_ifs with h
    · exact List.Perm.refl _
    · exact (List.Perm.cons q ih).trans (List.Perm.swap p q qs)

theorem sortFields_perm {β : Type} :
    ∀ l : List (String × β), (sortFields l).Perm l := by
  intro l
  induction l with
  | nil => exact List.Perm.refl _
  | cons p ps ih =>
    exact (insertField_perm p (sortFields ps)).trans (List.Perm.cons p ih)

theorem keyLe_of_trans {p q x : String}
    (h1 : keyLe p q = true) (h2 : keyLe q x = true) : keyLe p x = true := by
  have hpq : lexCmp p.data q.data ≠ .gt := by
    unfold keyLe at h1
    intro hg; rw [hg] at h1; simp at h1
  have hqx : lexCmp q.data x.data ≠ .gt := by
    unfold keyLe at h2
    intro hg; rw [hg] at h2; simp at h2
  have hpx := keyLe_trans _ _ _ hpq hqx
  unfold keyLe
  rcases he : lexCmp p.data x.data with _ | _ | _
  · rfl
  · rfl
  · exact absurd he hpx

theorem insertField_pairwise {β : Type} (p : String × β) (l : List (String × β))
    (hl : l.Pairwise (fun x y => keyLe x.1 y.1 = true)) :
    (insertField p l).Pairwise (fun x y => keyLe x.1 y.1 = true) := by
  induction l with
  | nil => simp [insertField]
  | cons q qs ih =>
    simp only [insertField]
    rcases List.pairwise_cons.mp hl with ⟨hq, hqs⟩
    split_ifs with h
    · refine List.pairwise_cons.mpr ⟨?_, hl⟩
      intro x hx
      rcases List.mem_cons.mp hx with hx | hx
      · rw [hx]; exact h
      · exact keyLe_of_trans h (hq x hx)
    · refine List.pairwise_cons.mpr ⟨?_, ih hqs⟩
      intro x hx
      have := (insertField_perm p qs).mem_iff.mp hx
      rcases List.mem_cons.mp this with hx | hx
      · rw [hx]
        exact keyLe_total (by simpa using h)
      · exact hq x hx

theorem sortFields_pairwise {β : Type} :
    ∀ l : List (String × β),
      (sortFields l).Pairwise (fun x y => keyLe x.1 y.1 = true) := by
  intro l
  induction l with
  | nil => simp [sortFields]
  | cons p ps ih => exact insertField_pairwise p (sortFields ps) ih

theorem pairwise_lt_of_le_ne {β : Type} (l : List (String × β))
    (hle : l.Pairwise (fun x y => keyLe x.1 y.1 = true))
    (hne : l.Pairwise (fun x y : String × β => x.1 ≠ y.1)) :
    l.Pairwise (fun x y : String × β => lexCmp x.1.data y.1.data = .lt) := by
  induction l with
  | nil => exact List.Pairwise.nil
  | cons p ps ih =>
    rcases List.pairwise_cons.mp hle with ⟨h1, h1s⟩
    rcases List.pairwise_cons.mp hne with ⟨h2, h2s⟩
    exact List.pairwise_cons.mpr
      ⟨fun x hx => keyLt_of_le_ne (h1 x hx) (h2 x hx), ih h1s h2s⟩

/-- Two field lists that are permutations of each other and have
pairwise-distinct keys sort to the same list. -/
theorem sortFields_eq_of_perm {β : Type} {l₁ l₂ : List (String × β)}
    (hperm : l₁.Perm l₂) (hkeys : (l₁.map Prod.fst).Nodup) :
    sortFields l₁ = sortFields l₂ := by
  have hkeys₂ : (l₂.map Prod.fst).Nodup := (hperm.map Prod.fst).nodup hkeys
  have hne₁ : l₁.Pairwise (fun x y : String × β => x.1 ≠ y.1) :=
    (List.pairwise_map).mp hkeys
  have hne₂ : l₂.Pairwise (fun x y : String × β => x.1 ≠ y.1) :=
    (List.pairwise_map).mp hkeys₂
  have hsort : ∀ l : List (String × β),
      l.Pairwise (fun x y : String × β => x.1 ≠ y.1) →
      (sortFields l).Pairwise
        (fun x y : String × β => lexCmp x.1.data y.1.data = .lt) := by
    intro l hl
    refine pairwise_lt_of_le_ne _ (sortFields_pairwise l) ?_
    exact hl.perm (sortFields_perm l).symm (fun h he => h he.symm)
  haveI : IsAntisymm (String × β)
      (fun x y : String × β => lexCmp x.1.data y.1.data = .lt) := by
    constructor
    intro a b h1 h2
    exfalso
    have := (lexCmp_gt_iff_lt b.1.data a.1.data).mpr h1
    rw [this] at h2
    exact absurd h2 (by simp)
  exact List.eq_of_perm_of_sorted
    ((sortFields_perm l₁).trans (hperm.trans (sortFields_perm l₂).symm))
    (hsort l₁ hne₁) (hsort l₂ hne₂)

/-! ### The completion request data -/

/-- One chat message as validated by the HTTP layer (`ChatMessage` in
`src/api/v1/endpoints/chat.py`): `role`, `content`, and an optional
`name` (serialized only when present). -/
structure Message where
  role : String
  content : String
  name : Option String := none

/-- A JSON-serializable parameter value as passed through the optional
parameters and `**kwargs` of `chat_completion` (`temperature`,
`max_tokens`, `stop`, ...).  Numeric parameters are modelled over `Int`;
the claims quantify over parameter maps, not over particular float
values. -/
inductive ParamVal where
  | null
  | bool (b : Bool)
  | int (n : Int)
  | str (s : String)
  | strList (xs : List String)

/-- A value of the `request_data` dict built by `_generate_cache_key`
(lines 62-66): the model string, the message list, or a forwarded
parameter. -/
inductive TopVal where
  | str (s : String)
  | msgs (ms : List Message)
  | param (p : ParamVal)

/-! ### `json.dumps(..., sort_keys=True)` on the request data -/

/-- JSON string escaping for the characters the gateway's data can
contain (quote and backslash; `json.dumps` defaults). -/
def escChar (c : Char) : String :=
  if c = Char.ofNat 34 then "\\\""
  else if c = Char.ofNat 92 then "\\\\"
  else String.singleton c

/-- A JSON string literal. -/
def jsonStr (s : String) : String :=
  "\"" ++ String.join (s.data.map escChar) ++ "\""

/-- A message dict `msg.model_dump()` serialized with sorted keys
(`content` < `name` < `role` in code-point order). -/
def dumpMessage (m : Message) : String :=
  match m.name with
  | none =>
    "\x7b" ++ jsonStr "content" ++ ": " ++ jsonStr m.content ++ ", " ++
      jsonStr "role" ++ ": " ++ jsonStr m.role ++ "\x7d"
  | some n =>
    "\x7b" ++ jsonStr "content" ++ ": " ++ jsonStr m.content ++ ", " ++
      jsonStr "name" ++ ": " ++ jsonStr n ++ ", " ++
      jsonStr "role" ++ ": " ++ jsonStr m.role ++ "\x7d"

/-- Serialization of one parameter value. -/
def dumpParam : ParamVal → String
  | .null => "null"
  | .bool b => cond b "true" "false"
  | .int n => toString n
  | .str s => jsonStr s
  | .strList xs => "[" ++ String.intercalate ", " (xs.map jsonStr) ++ "]"

/-- Serialization of one top-level value. -/
def dumpTop : TopVal → String
  | .str s => jsonStr s
  | .msgs ms => "[" ++ String.intercalate ", " (ms.map dumpMessage) ++ "]"
  | .param p => dumpParam p

/-- `json.dumps(request_data, sort_keys=True)` (line 67): the top-level
dict serialized with its keys in code-point sort order and the default
separators. -/
def jsonDumpsSorted (fields : List (String × TopVal)) : String :=
  "\x7b" ++ String.intercalate ", "
    ((sortFields fields).map (fun kv => jsonStr kv.1 ++ ": " ++ dumpTop kv.2))
    ++ "\x7d"

/-- The `request_data` dict of `_generate_cache_key` (lines 62-66):
`model`, `messages`, then every `kwargs` entry whose key is not
`stream` or `user`.  (Python guarantees `kwargs` never contains the
keys `model` or `messages`: those bind to the named parameters.) -/
def request_data (model : String) (messages : List Message)
    (kwargs : List (String × ParamVal)) : List (String × TopVal) :=
  ("model", .str model) :: ("messages", .msgs messages) ::
    (kwargs.filter (fun kv => !(kv.1 == "stream" || kv.1 == "user"))).map
      (fun kv => (kv.1, TopVal.param kv.2))

/-- `LiteLLMService._generate_cache_key` (lines 59-68).  The digest
`hashlib.md5(...).hexdigest()` is Python standard-library code, not part
of the repository; it enters as the function parameter `md5hex`. -/
def generate_cache_key (md5hex : String → String) (model : String)
    (messages : List Message) (kwargs : List (String × ParamVal)) : String :=
  "litellm:cache:" ++ md5hex (jsonDumpsSorted (request_data model messages kwargs))

/-! ### Outcomes, configuration, responses -/

/-- A Python computation that either returns or raises; an exception is
observed only through its text `str(e)`, which is all the gateway
inspects. -/
inductive PyOutcome (α : Type) where
  | ok (a : α)
  | raise (msg : String)

/-- `fastapi.HTTPException` as raised by the gateway. -/
structure GatewayError where
  status : Nat
  detail : String
deriving DecidableEq, Repr

/-- The configuration fields of `src/core/config.py` consumed by the
service.  Provider keys are `Optional[str]` and are tested for Python
truthiness, so `some ""` counts as unset. -/
structure GatewaySettings where
  cacheEnabled : Bool
  cacheTTL : Nat := 3600
  costTrackingEnabled : Bool := true
  openaiApiKey : Option String := none
  anthropicApiKey : Option String := none
  googleApiKey : Option String := none
  cohereApiKey : Option String := none

/-- Python truthiness of an `Optional[str]` credential. -/
def keyConfigured : Option String → Bool
  | none => false
  | some s => s != ""

/-- The token-usage sub-dict of a completion response; `_log_usage`
defaults each count to `0` when absent. -/
structure RespUsage where
  prompt_tokens : Int := 0
  completion_tokens : Int := 0
  total_tokens : Int := 0
deriving DecidableEq, Repr

/-- The dict form of a completion response (`response.model_dump()` at
line 199).  `body` stands for the remaining content (`choices`,
`created`, ...), which the gateway passes through untouched. -/
structure RespDict where
  id : String
  usage : Option RespUsage := none
  body : String := ""
deriving DecidableEq, Repr

/-- The usage record emitted by `_log_usage` (the `logger.info` extra
fields at lines 120-130); cost in USD is modelled over `Int`, only its
zero-on-failure behaviour matters. -/
structure UsageRecord where
  model : String
  prompt_tokens : Int
  completion_tokens : Int
  total_tokens : Int
  cost_usd : Int
  user_id : Option String
deriving DecidableEq, Repr

/-! ### The cache layer and the usage recorder -/

/-- `LiteLLMService._get_cached_response` (lines 70-83).  `redisConn`
models whether `self.redis` is set; `storeGet` models `self.redis.get`
(it may raise); `loads` models `json.loads` (it may raise on a malformed
payload).  Every failure path inside the `try` falls through to
`return None` — a miss. -/
def get_cached_response (cacheEnabled redisConn : Bool)
    (storeGet : String → PyOutcome (Option String))
    (loads : String → PyOutcome RespDict) (key : String) : Option RespDict :=
  if !redisConn || !cacheEnabled then none
  else
    match storeGet key with
    | .raise _ => none
    | .ok none => none
    | .ok (some cached) =>
      if cached = "" then none
      else
        match loads cached with
        | .raise _ => none
        | .ok r => some r

/-- `LiteLLMService._cache_response` (lines 85-98): returns whether the
store took effect; a raising `setex` is caught at line 97 and the
function returns normally. -/
def cache_response (cacheEnabled redisConn : Bool)
    (storeSet : String → Nat → String → PyOutcome Unit)
    (ttl : Nat) (key : String) (payload : String) : Bool :=
  if !redisConn || !cacheEnabled then false
  else
    match storeSet key ttl payload with
    | .raise _ => false
    | .ok _ => true

/-- `LiteLLMService._log_usage` (lines 100-133): returns the emitted
usage record, or `none` when cost tracking is disabled.  The
`completion_cost` price function is external (`litellm`) and enters as
the oracle `costFn`; when it raises, the inner `except` at line 114
records cost `0.0`. -/
def log_usage (settings : GatewaySettings) (costFn : RespDict → PyOutcome Int)
    (model : String) (response : RespDict) (user : Option String) :
    Option UsageRecord :=
  if settings.costTrackingEnabled = false then none
  else
    let usage := response.usage.getD {}
    let cost : Int :=
      match costFn response with
      | .ok c => c
      | .raise _ => 0
    some { model := model, prompt_tokens := usage.prompt_tokens,
           completion_tokens := usage.completion_tokens,
           total_tokens := usage.total_tokens,
           cost_usd := cost, user_id := user }

/-! ### The error normalizer (the `except` block, lines 213-227) -/

/-- The gateway error taxonomy named by the specification for the five
branches of the `except` block. -/
inductive ErrorKind where
  | rateLimited
  | unauthorized
  | modelNotFound
  | quotaExceeded
  | upstreamError
deriving DecidableEq, Repr

/-- The HTTP status attached to each error kind. -/
def kindStatus : ErrorKind → Nat
  | .rateLimited => 429
  | .unauthorized => 401
  | .modelNotFound => 404
  | .quotaExceeded => 402
  | .upstreamError => 500

/-- The classification cascade of lines 218-227: substring tests on the
lower-cased error text, first match wins. -/
def classifyError (msg : String) : ErrorKind :=
  if strContains (pyLower msg) "rate limit" then .rateLimited
  else if strContains (pyLower msg) "invalid api key" then .unauthorized
  else if strContains (pyLower msg) "model not found" then .modelNotFound
  else if strContains (pyLower msg) "insufficient quota" then .quotaExceeded
  else .upstreamError

/-- The `HTTPException` raised for an upstream failure (lines 217-227),
with each branch's detail text. -/
def normalizeError (model : String) (msg : String) : GatewayError :=
  if strContains (pyLower msg) "rate limit" then
    { status := 429, detail := "Rate limit exceeded" }
  else if strContains (pyLower msg) "invalid api key" then
    { status := 401, detail := "Invalid API key" }
  else if strContains (pyLower msg) "model not found" then
    { status := 404, detail := "Model \x27" ++ model ++ "\x27 not found" }
  else if strContains (pyLower msg) "insufficient quota" then
    { status := 402, detail := "Insufficient quota" }
  else
    { status := 500, detail := "LLM service error: " ++ msg }

/-! ### The orchestrator `chat_completion` (lines 135-227) -/

/-- The named arguments of `chat_completion` (lines 135-147). -/
structure ChatArgs where
  model : String
  messages : List Message
  temperature : Option ParamVal := none
  max_tokens : Option ParamVal := none
  top_p : Option ParamVal := none
  frequency_penalty : Option ParamVal := none
  presence_penalty : Option ParamVal := none
  stop : Option ParamVal := none
  stream : Bool := false
  user : Option String := none

/-- The `params` dict assembled at lines 154-178: `model`, `messages`,
`stream`, each optional parameter only when non-None, then
`params.update(kwargs)`.  A Python keyword argument can never repeat a
named parameter, so the update is an append of fresh keys. -/
def buildParams (a : ChatArgs) (kwargs : List (String × ParamVal)) :
    List (String × TopVal) :=
  let opt := fun (k : String) (v : Option ParamVal) =>
    match v with
    | none => ([] : List (String × TopVal))
    | some p => [(k, TopVal.param p)]
  [("model", TopVal.str a.model), ("messages", TopVal.msgs a.messages),
   ("stream", TopVal.param (.bool a.stream))] ++
    opt "temperature" a.temperature ++ opt "max_tokens" a.max_tokens ++
    opt "top_p" a.top_p ++ opt "frequency_penalty" a.frequency_penalty ++
    opt "presence_penalty" a.presence_penalty ++ opt "stop" a.stop ++
    (match a.user with
     | none => []
     | some u => [("user", TopVal.param (.str u))]) ++
    kwargs.map (fun kv => (kv.1, TopVal.param kv.2))

/-- One invocation's environment: the configuration plus all external
oracles — the `self.redis` connection and its behaviour, the upstream
`acompletion` call (composed with `model_dump`, as a function of the
forwarded `params`), `json.loads`, and `completion_cost`. -/
structure CallEnv where
  settings : GatewaySettings
  redisConn : Bool
  storeGet : String → PyOutcome (Option String)
  storeSet : String → Nat → String → PyOutcome Unit
  loads : String → PyOutcome RespDict
  upstream : List (String × TopVal) → PyOutcome RespDict
  costFn : RespDict → PyOutcome Int

/-- The observable behaviour of one `chat_completion` call: the value
given to the caller (`Except.ok none` is Python returning `None`), the
number of upstream `acompletion` invocations, the usage records emitted,
and how often the cache layer was entered. -/
structure CallResult where
  result : Except GatewayError (Option RespDict)
  upstreamCalls : Nat
  records : List UsageRecord
  cacheGetCalls : Nat
  cacheSetCalls : Nat
  cacheHits : Nat

/-- The text of the `TypeError` Python raises at line 185:
`self._generate_cache_key(model, messages, **params)` passes `model` and
`messages` positionally while `params` (built at lines 155-159) also
contains the keys `"model"` and `"messages"`, so the call raises before
the cache is consulted.  Only the absence of the four classification
patterns in this text matters below. -/
def typeErrorText : String :=
  "LiteLLMService._generate_cache_key() got multiple values for argument \x27model\x27"

/-- `LiteLLMService.chat_completion` (lines 135-227) as a function of
one call environment.  Control flow of the `try` block:

* non-streaming with `CACHE_ENABLED` (line 184): line 185 raises
  `TypeError` (see `typeErrorText`), caught by `except` at line 213 and
  mapped by the cascade — no cache access and no upstream call happen;
* streaming: `acompletion` is awaited (line 194); on success control
  falls off the end of the `try` block and the function returns `None`;
* non-streaming with cache disabled: `acompletion` is awaited
  (line 196); on success the line-202 cache store is guarded by
  `CACHE_ENABLED` (false on this path), `_log_usage` runs (line 206) and
  the response dict is returned (line 211); on failure the error text is
  mapped by the cascade. -/
def chat_completion (env : CallEnv) (a : ChatArgs)
    (kwargs : List (String × ParamVal)) : CallResult :=
  let params := buildParams a kwargs
  if a.stream = false ∧ env.settings.cacheEnabled = true then
    { result := .error (normalizeError a.model typeErrorText),
      upstreamCalls := 0, records := [],
      cacheGetCalls := 0, cacheSetCalls := 0, cacheHits := 0 }
  else if a.stream then
    match env.upstream params with
    | .raise msg =>
      { result := .error (normalizeError a.model msg),
        upstreamCalls := 1, records := [],
        cacheGetCalls := 0, cacheSetCalls := 0, cacheHits := 0 }
    | .ok _ =>
      { result := .ok none,
        upstreamCalls := 1, records := [],
        cacheGetCalls := 0, cacheSetCalls := 0, cacheHits := 0 }
  else
    match env.upstream params with
    | .raise msg =>
      { result := .error (normalizeError a.model msg),
        upstreamCalls := 1, records := [],
        cacheGetCalls := 0, cacheSetCalls := 0, cacheHits := 0 }
    | .ok resp =>
      { result := .ok (some resp),
        upstreamCalls := 1,
        records := (log_usage env.settings env.costFn a.model resp a.user).toList,
        cacheGetCalls := 0,
        cacheSetCalls := if env.settings.cacheEnabled then 1 else 0,
        cacheHits := 0 }

/-! ### The static model catalog (lines 229-268) -/

/-- One entry of the curated model list. -/
structure CatalogEntry where
  id : String
  provider : String
deriving DecidableEq, Repr

/-- The curated model list of `get_available_models` (lines 234-253), in
declaration order. -/
def modelCatalog : List CatalogEntry :=
  [⟨"gpt-4", "openai"⟩, ⟨"gpt-4-turbo", "openai"⟩,
   ⟨"gpt-3.5-turbo", "openai"⟩, ⟨"gpt-3.5-turbo-16k", "openai"⟩,
   ⟨"claude-3-opus-20240229", "anthropic"⟩,
   ⟨"claude-3-sonnet-20240229", "anthropic"⟩,
   ⟨"claude-3-haiku-20240307", "anthropic"⟩,
   ⟨"gemini-pro", "google"⟩, ⟨"gemini-pro-vision", "google"⟩,
   ⟨"command", "cohere"⟩, ⟨"command-light", "cohere"⟩]

/-- The per-entry credential filter (lines 257-265). -/
def providerConfigured (s : GatewaySettings) (m : CatalogEntry) : Bool :=
  (m.provider == "openai" && keyConfigured s.openaiApiKey) ||
  (m.provider == "anthropic" && keyConfigured s.anthropicApiKey) ||
  (m.provider == "google" && keyConfigured s.googleApiKey) ||
  (m.provider == "cohere" && keyConfigured s.cohereApiKey)

/-- `LiteLLMService.get_available_models` (lines 229-268): the loop at
lines 256-265 appends exactly the entries passing the credential
filter, in catalog order. -/
def get_available_models (s : GatewaySettings) : List CatalogEntry :=
  modelCatalog.filter (providerConfigured s)

/-! ### Helper lemmas and shared concrete fixtures -/

theorem isPrefixOf_refl_charlist : ∀ l : List Char, l.isPrefixOf l = true := by
  intro l
  induction l with
  | nil => rfl
  | cons a as ih => simp [List.isPrefixOf, ih]

theorem containsSeq_append_self (pre pat : List Char) :
    containsSeq pat (pre ++ pat) = true := by
  induction pre with
  | nil =>
    cases pat with
    | nil => rfl
    | cons a rest =>
      simp [containsSeq, isPrefixOf_refl_charlist]
  | cons c pre ih =>
    simp [containsSeq, ih]

/-- A string contains any of its suffixes. -/
theorem strContains_append_self (pre msg : String) :
    strContains (pre ++ msg) msg = true := by
  unfold strContains
  have hdata : (pre ++ msg).data = pre.data ++ msg.data := rfl
  rw [hdata]
  exact containsSeq_append_self pre.data msg.data

/-- A fixed successful upstream response used by the concrete runs. -/
def sampleResp : RespDict :=
  { id := "chatcmpl-abc123",
    usage := some { prompt_tokens := 5, completion_tokens := 7, total_tokens := 12 },
    body := "choices" }

/-- A call environment with a healthy store and a successful upstream. -/
def sampleEnv (s : GatewaySettings) : CallEnv :=
  { settings := s,
    redisConn := true,
    storeGet := fun _ => .ok none,
    storeSet := fun _ _ _ => .ok (),
    loads := fun _ => .raise "malformed payload",
    upstream := fun _ => .ok sampleResp,
    costFn := fun _ => .ok 3 }

/-- The scenario request of the specification:
`model "gpt-3.5-turbo"`, one user message `"Hello"`. -/
def sampleArgs : ChatArgs :=
  { model := "gpt-3.5-turbo",
    messages := [{ role := "user", content := "Hello" }] }

/-! ### C2 — the error normalizer -/

/-- C2: the error normalizer classifies by case-insensitive substring
matching on the error text, first match wins, in the fixed order
rate limit (429) / invalid api key (401) / model not found (404) /
insufficient quota (402), and otherwise yields status 500 carrying the
original message text.  `classifyError`/`normalizeError` are pure
functions of the text, so equal raw texts always classify equally; the
final conjunct ties every kind to its status. -/
theorem error_cascade_spec (model msg : String) :
    (strContains (pyLower msg) "rate limit" = true →
      classifyError msg = .rateLimited ∧
      normalizeError model msg = { status := 429, detail := "Rate limit exceeded" }) ∧
    (strContains (pyLower msg) "rate limit" = false →
     strContains (pyLower msg) "invalid api key" = true →
      classifyError msg = .unauthorized ∧
      normalizeError model msg = { status := 401, detail := "Invalid API key" }) ∧
    (strContains (pyLower msg) "rate limit" = false →
     strContains (pyLower msg) "invalid api key" = false →
     strContains (pyLower msg) "model not found" = true →
      classifyError msg = .modelNotFound ∧
      normalizeError model msg =
        { status := 404, detail := "Model \x27" ++ model ++ "\x27 not found" }) ∧
    (strContains (pyLower msg) "rate limit" = false →
     strContains (pyLower msg) "invalid api key" = false →
     strContains (pyLower msg) "model not found" = false →
     strContains (pyLower msg) "insufficient quota" = true →
      classifyError msg = .quotaExceeded ∧
      normalizeError model msg = { status := 402, detail := "Insufficient quota" }) ∧
    (strContains (pyLower msg) "rate limit" = false →
     strContains (pyLower msg) "invalid api key" = false →
     strContains (pyLower msg) "model not found" = false →
     strContains (pyLower msg) "insufficient quota" = false →
      classifyError msg = .upstreamError ∧
      normalizeError model msg =
        { status := 500, detail := "LLM service error: " ++ msg } ∧
      strContains (normalizeError model msg).detail msg = true) ∧
    ((normalizeError model msg).status = kindStatus (classifyError msg)) := by
  refine ⟨?_, ?_, ?_, ?_, ?_, ?_⟩
  · intro h1
    constructor <;> simp [classifyError, normalizeError, h1]
  · intro h1 h2
    constructor <;> simp [classifyError, normalizeError, h1, h2]
  · intro h1 h2 h3
    constructor <;> simp [classifyError, normalizeError, h1, h2, h3]
  · intro h1 h2 h3 h4
    constructor <;> simp [classifyError, normalizeError, h1, h2, h3, h4]
  · intro h1 h2 h3 h4
    refine ⟨?_, ?_, ?_⟩
    · simp [classifyError, h1, h2, h3, h4]
    · simp [normalizeError, h1, h2, h3, h4]
    · simp [normalizeError, h1, h2, h3, h4]
      exact strContains_append_self "LLM service error: " msg
  · unfold classifyError normalizeError kindStatus
    split_ifs <;> rfl

/-- C2 witness: a text containing both "rate limit" and "invalid api
key" (in mixed case) classifies as rate-limited with status 429. -/
theorem error_cascade_spec_witness :
    classifyError "XX Rate Limit with Invalid API Key" = .rateLimited ∧
    normalizeError "gpt-4" "XX Rate Limit with Invalid API Key" =
      { status := 429, detail := "Rate limit exceeded" } :=
  (error_cascade_spec "gpt-4" "XX Rate Limit with Invalid API Key").1 rfl

/-! ### C3 — cache-key determinism -/

theorem request_data_perm (model : String) (messages : List Message)
    {kw₁ kw₂ : List (String × ParamVal)} (h : kw₁.Perm kw₂) :
    (request_data model messages kw₁).Perm (request_data model messages kw₂) := by
  unfold request_data
  exact List.Perm.cons _ (List.Perm.cons _ ((h.filter _).map _))

theorem request_data_pairwise_ne (model : String) (messages : List Message)
    (kw : List (String × ParamVal)) (hnd : (kw.map Prod.fst).Nodup)
    (hforbid : ∀ k ∈ kw.map Prod.fst, k ≠ "model" ∧ k ≠ "messages") :
    (request_data model messages kw).Pairwise
      (fun x y : String × TopVal => x.1 ≠ y.1) := by
  have hkw : kw.Pairwise (fun a b : String × ParamVal => a.1 ≠ b.1) :=
    (List.pairwise_map).mp hnd
  have hfil :
      (kw.filter (fun kv => !(kv.1 == "stream" || kv.1 == "user"))).Pairwise
        (fun a b : String × ParamVal => a.1 ≠ b.1) :=
    hkw.sublist (List.filter_sublist _)
  have hmapped :
      ((kw.filter (fun kv => !(kv.1 == "stream" || kv.1 == "user"))).map
          (fun kv => (kv.1, TopVal.param kv.2))).Pairwise
        (fun x y : String × TopVal => x.1 ≠ y.1) :=
    (List.pairwise_map).mpr hfil
  unfold request_data
  refine List.pairwise_cons.mpr ⟨?_, List.pairwise_cons.mpr ⟨?_, hmapped⟩⟩
  · intro x hx
    rcases List.mem_cons.mp hx with hx | hx
    · rw [hx]
      simp
    · obtain ⟨kv, hkv, rfl⟩ := List.mem_map.mp hx
      have hk : kv.1 ∈ kw.map Prod.fst :=
        List.mem_map_of_mem _ (List.mem_of_mem_filter hkv)
      exact fun he => (hforbid kv.1 hk).1 he.symm
  · intro x hx
    obtain ⟨kv, hkv, rfl⟩ := List.mem_map.mp hx
    have hk : kv.1 ∈ kw.map Prod.fst :=
      List.mem_map_of_mem _ (List.mem_of_mem_filter hkv)
    exact fun he => (hforbid kv.1 hk).2 he.symm

/-- C3: cache-key derivation is deterministic.  First conjunct: for
identical model, messages and parameter map, the key does not depend on
the order in which the parameters were inserted (any permutation of the
`kwargs` association list, with the distinct keys a Python dict
guarantees, and without the keys `model`/`messages` that Python binds
to the named parameters).  Second conjunct: two requests that differ
only in their `stream` or `user` entries yield the same key, because
line 65 filters both out.  Both hold for every digest function, in
particular for `hashlib.md5`. -/
theorem cache_key_deterministic (md5hex : String → String) (model : String)
    (messages : List Message) :
    (∀ kw₁ kw₂ : List (String × ParamVal),
      kw₁.Perm kw₂ → (kw₁.map Prod.fst).Nodup →
      (∀ k ∈ kw₁.map Prod.fst, k ≠ "model" ∧ k ≠ "messages") →
      generate_cache_key md5hex model messages kw₁ =
        generate_cache_key md5hex model messages kw₂) ∧
    (∀ (kw : List (String × ParamVal)) (s₁ u₁ s₂ u₂ : ParamVal),
      generate_cache_key md5hex model messages
          (kw ++ [("stream", s₁), ("user", u₁)]) =
        generate_cache_key md5hex model messages
          (kw ++ [("stream", s₂), ("user", u₂)])) := by
  constructor
  · intro kw₁ kw₂ hperm hnd hforbid
    have hnd₁ : ((request_data model messages kw₁).map Prod.fst).Nodup :=
      (List.pairwise_map).mpr
        (request_data_pairwise_ne model messages kw₁ hnd hforbid)
    have hsf : sortFields (request_data model messages kw₁) =
        sortFields (request_data model messages kw₂) :=
      sortFields_eq_of_perm (request_data_perm model messages hperm) hnd₁
    have hjson : jsonDumpsSorted (request_data model messages kw₁) =
        jsonDumpsSorted (request_data model messages kw₂) := by
      unfold jsonDumpsSorted
      rw [hsf]
    exact congrArg (fun t => "litellm:cache:" ++ md5hex t) hjson
  · intro kw s₁ u₁ s₂ u₂
    have hreq : request_data model messages (kw ++ [("stream", s₁), ("user", u₁)]) =
        request_data model messages (kw ++ [("stream", s₂), ("user", u₂)]) := by
      unfold request_data
      rw [List.filter_append, List.filter_append]
      have h1 : List.filter (fun kv => !(kv.1 == "stream" || kv.1 == "user"))
          [(("stream" : String), s₁), (("user" : String), u₁)] = [] := rfl
      have h2 : List.filter (fun kv => !(kv.1 == "stream" || kv.1 == "user"))
          [(("stream" : String), s₂), (("user" : String), u₂)] = [] := rfl
      rw [h1, h2]
    exact congrArg (fun t =>
      "litellm:cache:" ++ md5hex (jsonDumpsSorted t)) hreq

/-- C3 witness: concrete keys agree under parameter reordering and
under changes confined to `stream`/`user`. -/
theorem cache_key_deterministic_witness :
    generate_cache_key id "gpt-4" [{ role := "user", content := "Hi" }]
        [("temperature", .int 1), ("max_tokens", .int 64)] =
      generate_cache_key id "gpt-4" [{ role := "user", content := "Hi" }]
        [("max_tokens", .int 64), ("temperature", .int 1)] ∧
    generate_cache_key id "gpt-4" [{ role := "user", content := "Hi" }]
        ([("temperature", .int 1)] ++ [("stream", .bool true), ("user", .str "alice")]) =
      generate_cache_key id "gpt-4" [{ role := "user", content := "Hi" }]
        ([("temperature", .int 1)] ++ [("stream", .bool false), ("user", .str "bob")]) := by
  constructor
  · exact (cache_key_deterministic id "gpt-4"
        [{ role := "user", content := "Hi" }]).1
      [("temperature", .int 1), ("max_tokens", .int 64)]
      [("max_tokens", .int 64), ("temperature", .int 1)]
      (List.Perm.swap _ _ _) (by decide) (by decide)
  · exact (cache_key_deterministic id "gpt-4"
        [{ role := "user", content := "Hi" }]).2
      [("temperature", .int 1)] (.bool true) (.str "alice") (.bool false) (.str "bob")

/-! ### C9 — model filtering -/

/-- C9: `get_available_models` returns only catalog entries whose
provider has a configured credential, as a sublist of the catalog (so in
declaration order: the OpenAI, Anthropic, Google, Cohere groups); and
with only an OpenAI credential configured, it returns exactly the four
OpenAI-tagged entries `gpt-4`, `gpt-4-turbo`, `gpt-3.5-turbo`,
`gpt-3.5-turbo-16k` and no others. -/
theorem model_filtering_by_credentials (s : GatewaySettings) :
    ((get_available_models s).Sublist modelCatalog) ∧
    (∀ m : CatalogEntry,
      m ∈ get_available_models s ↔
        m ∈ modelCatalog ∧ providerConfigured s m = true) ∧
    (∀ k : String, k ≠ "" → s.openaiApiKey = some k →
      s.anthropicApiKey = none → s.googleApiKey = none →
      s.cohereApiKey = none →
      get_available_models s =
        [⟨"gpt-4", "openai"⟩, ⟨"gpt-4-turbo", "openai"⟩,
         ⟨"gpt-3.5-turbo", "openai"⟩, ⟨"gpt-3.5-turbo-16k", "openai"⟩]) := by
  refine ⟨List.filter_sublist _, ?_, ?_⟩
  · intro m
    simp [get_available_models, List.mem_filter]
  · intro k hk ho ha hg hc
    have hb : (k != "") = true := by simpa [bne_iff_ne] using hk
    simp [get_available_models, modelCatalog, providerConfigured,
      keyConfigured, ho, ha, hg, hc, hb]

/-- C9 witness: a configuration with only an OpenAI key. -/
theorem model_filtering_by_credentials_witness :
    get_available_models { cacheEnabled := true, openaiApiKey := some "sk-test" } =
      [⟨"gpt-4", "openai"⟩, ⟨"gpt-4-turbo", "openai"⟩,
       ⟨"gpt-3.5-turbo", "openai"⟩, ⟨"gpt-3.5-turbo-16k", "openai"⟩] :=
  (model_filtering_by_credentials
    { cacheEnabled := true, openaiApiKey := some "sk-test" }).2.2
    "sk-test" (by decide) rfl rfl rfl rfl

/-! ### C4 — cache bypass -/

/-- C4: with the global cache flag off, or for a streaming request,
caching is bypassed entirely.  First conjunct: every such call — in
particular each of two identical back-to-back calls — invokes the
upstream path exactly once, never enters the cache layer and never
reports a hit.  Second and third conjuncts: with the flag off the cache
layer's get always misses and its set is a no-op, whatever the store
does. -/
theorem cache_bypass_correct :
    (∀ (env : CallEnv) (a : ChatArgs) (kwargs : List (String × ParamVal)),
      env.settings.cacheEnabled = false ∨ a.stream = true →
      (chat_completion env a kwargs).upstreamCalls = 1 ∧
      (chat_completion env a kwargs).cacheGetCalls = 0 ∧
      (chat_completion env a kwargs).cacheSetCalls = 0 ∧
      (chat_completion env a kwargs).cacheHits = 0) ∧
    (∀ (redisConn : Bool) (storeGet : String → PyOutcome (Option String))
       (loads : String → PyOutcome RespDict) (key : String),
      get_cached_response false redisConn storeGet loads key = none) ∧
    (∀ (redisConn : Bool) (storeSet : String → Nat → String → PyOutcome Unit)
       (ttl : Nat) (key payload : String),
      cache_response false redisConn storeSet ttl key payload = false) := by
  refine ⟨?_, ?_, ?_⟩
  · intro env a kwargs h
    rcases hup : env.upstream (buildParams a kwargs) with resp | msg <;>
      rcases h with h | h
    · cases hs : a.stream <;> simp [chat_completion, h, hs, hup]
    · simp [chat_completion, h, hup]
    · cases hs : a.stream <;> simp [chat_completion, h, hs, hup]
    · simp [chat_completion, h, hup]
  · intro redisConn storeGet loads key
    simp [get_cached_response]
  · intro redisConn storeSet ttl key payload
    simp [cache_response]

/-- C4 witness: a concrete cache-disabled call. -/
theorem cache_bypass_correct_witness :
    (chat_completion (sampleEnv { cacheEnabled := false }) sampleArgs []).upstreamCalls = 1 ∧
    (chat_completion (sampleEnv { cacheEnabled := false }) sampleArgs []).cacheGetCalls = 0 ∧
    (chat_completion (sampleEnv { cacheEnabled := false }) sampleArgs []).cacheSetCalls = 0 ∧
    (chat_completion (sampleEnv { cacheEnabled := false }) sampleArgs []).cacheHits = 0 :=
  cache_bypass_correct.1 (sampleEnv { cacheEnabled := false }) sampleArgs [] (Or.inl rfl)

/-! ### C7 — cache-store failures are recovered -/

/-- C7: every failure of the underlying store during get or set is
caught inside the cache layer — a raising `redis.get` (or a malformed
payload) yields a miss, a raising `setex` yields a no-op store — and
`chat_completion`'s behaviour does not depend on the store or
`json.loads` oracles at all, so such a failure never surfaces and never
changes the outcome of a completion. -/
theorem cache_failures_recovered :
    (∀ (cacheEnabled redisConn : Bool) (loads : String → PyOutcome RespDict)
       (storeGet : String → PyOutcome (Option String)) (key msg : String),
      storeGet key = .raise msg →
      get_cached_response cacheEnabled redisConn storeGet loads key = none) ∧
    (∀ (cacheEnabled redisConn : Bool)
       (storeSet : String → Nat → String → PyOutcome Unit)
       (ttl : Nat) (key payload msg : String),
      storeSet key ttl payload = .raise msg →
      cache_response cacheEnabled redisConn storeSet ttl key payload = false) ∧
    (∀ (env : CallEnv) (a : ChatArgs) (kwargs : List (String × ParamVal))
       (storeGet' : String → PyOutcome (Option String))
       (storeSet' : String → Nat → String → PyOutcome Unit)
       (loads' : String → PyOutcome RespDict),
      chat_completion
        { env with storeGet := storeGet', storeSet := storeSet', loads := loads' }
        a kwargs = chat_completion env a kwargs) := by
  refine ⟨?_, ?_, ?_⟩
  · intro ce rc loads storeGet key msg h
    cases ce <;> cases rc <;> simp [get_cached_response, h]
  · intro ce rc storeSet ttl key payload msg h
    cases ce <;> cases rc <;> simp [cache_response, h]
  · intro env a kwargs sg ss ld
    rfl

/-- C7 witness: a store that raises on both get and set. -/
theorem cache_failures_recovered_witness :
    get_cached_response true true (fun _ => .raise "redis down")
      (fun _ => .raise "bad json") "k" = none ∧
    cache_response true true (fun _ _ _ => .raise "redis down") 3600 "k" "v" = false ∧
    chat_completion
      { sampleEnv { cacheEnabled := true } with
          storeGet := fun _ => .raise "redis down",
          storeSet := fun _ _ _ => .raise "redis down",
          loads := fun _ => .raise "bad json" }
      sampleArgs [] =
      chat_completion (sampleEnv { cacheEnabled := true }) sampleArgs [] :=
  ⟨cache_failures_recovered.1 true true _ _ "k" "redis down" rfl,
   cache_failures_recovered.2.1 true true _ 3600 "k" "v" "redis down" rfl,
   cache_failures_recovered.2.2 (sampleEnv { cacheEnabled := true }) sampleArgs [] _ _ _⟩

/-! ### C8 — cost-function failure is non-fatal -/

/-- C8: on the successful completion path (non-streaming, cache flag
off — the only path that reaches `_log_usage` with a fresh response),
if `completion_cost` raises then the completion is still returned to
the caller and the emitted usage record carries cost zero: the inner
`except` at line 114 sets `cost = 0.0` and `_log_usage`'s outcome never
influences the returned value. -/
theorem cost_failure_records_zero (env : CallEnv) (a : ChatArgs)
    (kwargs : List (String × ParamVal)) (resp : RespDict) (msg : String)
    (hs : a.stream = false)
    (hc : env.settings.cacheEnabled = false)
    (ht : env.settings.costTrackingEnabled = true)
    (hu : env.upstream (buildParams a kwargs) = .ok resp)
    (hf : env.costFn resp = .raise msg) :
    (chat_completion env a kwargs).result = .ok (some resp) ∧
    (chat_completion env a kwargs).records =
      [{ model := a.model,
         prompt_tokens := (resp.usage.getD {}).prompt_tokens,
         completion_tokens := (resp.usage.getD {}).completion_tokens,
         total_tokens := (resp.usage.getD {}).total_tokens,
         cost_usd := 0, user_id := a.user }] := by
  constructor <;> simp [chat_completion, hs, hc, hu, log_usage, ht, hf]

/-- An environment whose price function raises. -/
def sampleEnvCostFail : CallEnv :=
  { sampleEnv { cacheEnabled := false } with
      costFn := fun _ => .raise "price table missing" }

/-- C8 witness: concrete run with a raising cost function. -/
theorem cost_failure_records_zero_witness :
    (chat_completion sampleEnvCostFail sampleArgs []).result = .ok (some sampleResp) ∧
    (chat_completion sampleEnvCostFail sampleArgs []).records =
      [{ model := "gpt-3.5-turbo", prompt_tokens := 5, completion_tokens := 7,
         total_tokens := 12, cost_usd := 0, user_id := none }] :=
  cost_failure_records_zero sampleEnvCostFail sampleArgs [] sampleResp
    "price table missing" rfl rfl rfl rfl rfl

/-! ### C10 — cost tracking disabled produces no record -/

/-- C10: with the cost-tracking flag off, no usage record is produced on
any path — streaming, error, cache-enabled or cache-disabled — while the
value returned to the caller is exactly the one returned with cost
tracking on (line 102 returns from `_log_usage` before any record is
built, and `chat_completion` ignores `_log_usage`'s outcome). -/
theorem cost_tracking_off_no_records (env : CallEnv) (a : ChatArgs)
    (kwargs : List (String × ParamVal))
    (h : env.settings.costTrackingEnabled = false) :
    (chat_completion env a kwargs).records = [] ∧
    (chat_completion env a kwargs).result =
      (chat_completion
        { env with settings := { env.settings with costTrackingEnabled := true } }
        a kwargs).result := by
  cases hs : a.stream <;>
    cases hc : env.settings.cacheEnabled <;>
    rcases hup : env.upstream (buildParams a kwargs) with resp | msg <;>
    constructor <;>
    simp [chat_completion, log_usage, hs, hc, hup, h]

/-- A configuration with caching and cost tracking both off. -/
def settingsNoTrack : GatewaySettings :=
  { cacheEnabled := false, costTrackingEnabled := false }

/-- C10 witness: concrete cache-disabled run with tracking off. -/
theorem cost_tracking_off_no_records_witness :
    (chat_completion (sampleEnv settingsNoTrack) sampleArgs []).records = [] ∧
    (chat_completion (sampleEnv settingsNoTrack) sampleArgs []).result =
      (chat_completion
        { sampleEnv settingsNoTrack with
            settings := { (sampleEnv settingsNoTrack).settings with
              costTrackingEnabled := true } }
        sampleArgs []).result :=
  cost_tracking_off_no_records (sampleEnv settingsNoTrack) sampleArgs [] rfl

/-! ### C1 — the cache round trip (counter-evidence) -/

/-- C1: contrary to the claim, a non-streaming call with caching enabled
cannot be served at all, let alone from the cache: line 185 passes
`**params` — which contains the keys `model` and `messages` — to
`_generate_cache_key`, whose `model`/`messages` parameters are already
bound positionally, so Python raises `TypeError` inside the `try` block
and the call returns HTTP 500 before consulting the cache or the
upstream.  Calling twice yields the same 500 twice; no call reports a
hit and no usage record is produced. -/
theorem cache_enabled_call_raises_type_error :
    (chat_completion (sampleEnv { cacheEnabled := true }) sampleArgs []).result =
      .error { status := 500, detail := "LLM service error: " ++ typeErrorText } ∧
    (chat_completion (sampleEnv { cacheEnabled := true }) sampleArgs []).upstreamCalls = 0 ∧
    (chat_completion (sampleEnv { cacheEnabled := true }) sampleArgs []).cacheGetCalls = 0 ∧
    (chat_completion (sampleEnv { cacheEnabled := true }) sampleArgs []).cacheHits = 0 ∧
    (chat_completion (sampleEnv { cacheEnabled := true }) sampleArgs []).records = [] :=
  ⟨rfl, rfl, rfl, rfl, rfl⟩

/-! ### C5 — the streaming path returns `None` -/

/-- C5: contrary to the claim, a streaming request whose upstream call
succeeds yields neither a CompletionResponse nor a GatewayError: the
`if stream:` branch at lines 192-194 assigns the awaited response but
never returns it, so control falls off the end of the `try` block and
`chat_completion` returns Python `None` — a third outcome. -/
theorem streaming_returns_none :
    (chat_completion (sampleEnv { cacheEnabled := true })
        { sampleArgs with stream := true } []).result = .ok none ∧
    (chat_completion (sampleEnv { cacheEnabled := true })
        { sampleArgs with stream := true } []).upstreamCalls = 1 ∧
    (∀ e : GatewayError,
      (chat_completion (sampleEnv { cacheEnabled := true })
          { sampleArgs with stream := true } []).result ≠ .error e) ∧
    (∀ r : RespDict,
      (chat_completion (sampleEnv { cacheEnabled := true })
          { sampleArgs with stream := true } []).result ≠ .ok (some r)) := by
  have hres : (chat_completion (sampleEnv { cacheEnabled := true })
      { sampleArgs with stream := true } []).result =
      Except.ok (none : Option RespDict) := rfl
  refine ⟨hres, rfl, ?_, ?_⟩
  · intro e h
    rw [hres] at h
    exact Except.noConfusion h
  · intro r h
    rw [hres] at h
    exact Option.noConfusion (Except.ok.inj h)

/-! ### C6 — unknown models are not rejected locally -/

/-- A request for a model id outside the static catalog. -/
def unknownArgs : ChatArgs :=
  { model := "no-such-model",
    messages := [{ role := "user", content := "Hello" }] }

/-- C6 counterexample: with a model id outside the static catalog and
cache disabled, `chat_completion` performs no local catalog check: the
upstream call is made (one invocation) and, when it succeeds, its
response is returned — the call neither fails with 404 nor avoids the
upstream, refuting "determined locally: no upstream provider call is
attempted". -/
theorem unknown_model_no_local_check :
    ("no-such-model" ∉ modelCatalog.map CatalogEntry.id) ∧
    (chat_completion (sampleEnv { cacheEnabled := false }) unknownArgs []).upstreamCalls = 1 ∧
    (chat_completion (sampleEnv { cacheEnabled := false }) unknownArgs []).result =
      .ok (some sampleResp) :=
  ⟨by decide, rfl, rfl⟩

/-- C6 amended: for a non-streaming request with caching disabled whose
model id is not in the static catalog, the failure is not determined
locally: an upstream provider call is attempted (exactly once);
`chat_completion` fails with status 404 (model-not-found) exactly when
that call raises with error text containing "model not found" and no
higher-priority pattern ("rate limit", "invalid api key"); and when the
upstream call succeeds, its response is returned normally. -/
theorem unknown_model_404_via_upstream (env : CallEnv) (a : ChatArgs)
    (kwargs : List (String × ParamVal))
    (_hcat : a.model ∉ modelCatalog.map CatalogEntry.id)
    (hs : a.stream = false) (hc : env.settings.cacheEnabled = false) :
    (chat_completion env a kwargs).upstreamCalls = 1 ∧
    ((chat_completion env a kwargs).result =
        .error { status := 404,
                 detail := "Model \x27" ++ a.model ++ "\x27 not found" } ↔
      ∃ msg, env.upstream (buildParams a kwargs) = .raise msg ∧
        strContains (pyLower msg) "rate limit" = false ∧
        strContains (pyLower msg) "invalid api key" = false ∧
        strContains (pyLower msg) "model not found" = true) ∧
    (∀ resp : RespDict, env.upstream (buildParams a kwargs) = .ok resp →
      (chat_completion env a kwargs).result = .ok (some resp)) := by
  rcases hup : env.upstream (buildParams a kwargs) with resp | msg
  · refine ⟨by simp [chat_completion, hs, hc, hup], ⟨?_, ?_⟩, ?_⟩
    · intro h
      have hres : (chat_completion env a kwargs).result = .ok (some resp) := by
        simp [chat_completion, hs, hc, hup]
      rw [hres] at h
      exact absurd h (by simp)
    · rintro ⟨msg, hmsg, -, -, -⟩
      exact absurd hmsg (by simp)
    · intro r hr
      injection hr with hrr
      rw [← hrr]
      simp [chat_completion, hs, hc, hup]
  · have hres : (chat_completion env a kwargs).result =
        .error (normalizeError a.model msg) := by
      simp [chat_completion, hs, hc, hup]
    refine ⟨by simp [chat_completion, hs, hc, hup], ⟨?_, ?_⟩, ?_⟩
    · intro h
      rw [hres] at h
      have he : normalizeError a.model msg =
          { status := 404,
            detail := "Model \x27" ++ a.model ++ "\x27 not found" } :=
        Except.error.inj h
      unfold normalizeError at he
      split_ifs at he with h1 h2 h3 h4
      · simp at he
      · simp at he
      · simp only [Bool.not_eq_true] at h1 h2
        exact ⟨msg, rfl, h1, h2, h3⟩
      · simp at he
      · simp at he
    · rintro ⟨msg', hmsg', hp1, hp2, hp3⟩
      injection hmsg' with hmm
      subst hmm
      rw [hres]
      simp [normalizeError, hp1, hp2, hp3]
    · intro r hr
      exact absurd hr (by simp)

/-- An environment whose upstream raises a model-not-found error. -/
def sampleEnvModelMissing : CallEnv :=
  { sampleEnv { cacheEnabled := false } with
      upstream := fun _ => .raise "litellm.NotFoundError: model not found" }

/-- C6 witness: concrete unknown-model run whose upstream raises. -/
theorem unknown_model_404_via_upstream_witness :
    (chat_completion sampleEnvModelMissing unknownArgs []).upstreamCalls = 1 ∧
    (chat_completion sampleEnvModelMissing unknownArgs []).result =
      .error { status := 404, detail := "Model \x27no-such-model\x27 not found" } := by
  have h := unknown_model_404_via_upstream sampleEnvModelMissing unknownArgs []
    (by decide) rfl rfl
  exact ⟨h.1, h.2.1.mpr
    ⟨"litellm.NotFoundError: model not found", rfl, rfl, rfl, rfl⟩⟩
